import Mathlib

/-!
Shallow embedding of the geometry, color, placeholder-lookup and
batch-request-building layer of the `google-slides-mcp` repository
(Python source under `src/`), together with theorems settling the
frozen claims about its specification.

Conventions of the embedding:
* Python `int` is modelled as `Int` (arbitrary precision in both).
* Python `float` values that the code only ever builds by dividing an
  integer by a positive integer are modelled exactly as `PyReal`, an
  unreduced fraction `num / den`; on the magnitudes that occur here
  (numerators below 2^24) IEEE double rounding never changes any of
  the observable integer results (`int(...)` truncation, `round(...)`,
  comparisons), so the exact-fraction model coincides with the float
  one on every observable used by the code.
* Python dicts fetched from the remote API are modelled as structures
  whose optional keys are `Option` fields; `d.get(k, default)` becomes
  `Option.getD`.
* Raising an exception is modelled as returning `Except.error`.
* Only ASCII text is modelled exactly: Python's `str.strip`, `int(s, 16)`
  and `str.lower` additionally handle non-ASCII whitespace/digits, which
  never occur in the inputs at issue.
-/

namespace GSlides

/-! ## Python primitive operations -/

/-- ASCII whitespace characters stripped by Python's `str.strip()` and by
`int(s, base)` input cleaning. -/
def isPyWS (c : Char) : Bool :=
  c = ' ' || c = '\t' || c = '\n' || c = '\r' || c = '\x0b' || c = '\x0c'

/-- Strip ASCII whitespace from both ends of a character list, as Python's
`str.strip()` does. -/
def stripWS (l : List Char) : List Char :=
  ((l.dropWhile isPyWS).reverse.dropWhile isPyWS).reverse

/-- The value of one hexadecimal digit, `none` for any other character. -/
def hexDigitVal (c : Char) : Option Nat :=
  if '0' ≤ c ∧ c ≤ '9' then some (c.toNat - '0'.toNat)
  else if 'a' ≤ c ∧ c ≤ 'f' then some (c.toNat - 'a'.toNat + 10)
  else if 'A' ≤ c ∧ c ≤ 'F' then some (c.toNat - 'A'.toNat + 10)
  else none

/-- Accumulate the remaining digits of a base-16 integer literal body:
hex digits, with single underscores allowed between digits (Python's
`int(s, 16)` digit grammar). -/
def hexDigitsAux : Nat → List Char → Option Nat
  | acc, [] => some acc
  | _, ['_'] => none
  | acc, '_' :: c :: rest =>
    match hexDigitVal c with
    | some v => hexDigitsAux (acc * 16 + v) rest
    | none => none
  | acc, c :: rest =>
    match hexDigitVal c with
    | some v => hexDigitsAux (acc * 16 + v) rest
    | none => none

/-- Parse a nonempty run of hex digits (underscores only between digits). -/
def hexDigits (l : List Char) : Option Nat :=
  match l with
  | [] => none
  | c :: rest =>
    match hexDigitVal c with
    | some v => hexDigitsAux v rest
    | none => none

/-- Drop an optional `0x`/`0X` prefix, together with the single underscore
Python allows directly after the prefix. -/
def dropHexLiteralHead (l : List Char) : List Char :=
  match l with
  | '0' :: 'x' :: r => (match r with | '_' :: r2 => r2 | _ => r)
  | '0' :: 'X' :: r => (match r with | '_' :: r2 => r2 | _ => r)
  | _ => l

/-- Python's `int(s, 16)`: strips surrounding whitespace, accepts an
optional sign, an optional `0x` prefix and underscore-separated hex
digits; `none` models the `ValueError` raised on any other input. -/
def pyIntHex (l : List Char) : Option Int :=
  let t := stripWS l
  let signAndRest : Int × List Char :=
    match t with
    | '+' :: r => (1, r)
    | '-' :: r => (-1, r)
    | _ => (1, t)
  match hexDigits (dropHexLiteralHead signAndRest.2) with
  | some v => some (signAndRest.1 * (v : Int))
  | none => none

/-- Lowercase a string character-wise (Python `str.lower()` on ASCII). -/
def pyLower (s : String) : String :=
  ⟨s.data.map Char.toLower⟩

/-- Strip ASCII whitespace from both ends of a string (Python `str.strip()`). -/
def pyStrip (s : String) : String :=
  ⟨stripWS s.data⟩

/-- Python's substring test `needle in hay`. -/
def strContains (hay needle : String) : Bool :=
  hay.data.tails.any (fun t => needle.data.isPrefixOf t)

/-! ## Exact model of the Python floats used by the color codec -/

/-- An exact fraction `num / den` (with `den > 0` at every use site),
modelling the Python floats produced by dividing an integer by a
positive integer. -/
structure PyReal where
  num : Int
  den : Int
deriving DecidableEq, Repr

/-- Comparison `a <= b` on fractions with positive denominators. -/
def PyReal.le (a b : PyReal) : Bool :=
  a.num * b.den ≤ b.num * a.den

/-- Multiply a fraction by the integer 255 (the only multiplication the
color codec performs on channel values). -/
def PyReal.mul255 (a : PyReal) : PyReal :=
  ⟨a.num * 255, a.den⟩

/-- Python 3's `round(x)` on an exact fraction with positive denominator:
round to nearest, ties to even. -/
def PyReal.pyRound (a : PyReal) : Int :=
  let q := a.num.fdiv a.den
  let r := a.num - q * a.den
  if 2 * r < a.den then q
  else if a.den < 2 * r then q + 1
  else if q % 2 = 0 then q else q + 1

/-! ## Color codec (`src/src/google_slides_mcp/utils/colors.py`) -/

/-- The `{"red": _, "green": _, "blue": _}` dict returned by `hex_to_rgb`
(all three keys always present). -/
structure RgbColor where
  red : PyReal
  green : PyReal
  blue : PyReal
deriving DecidableEq, Repr

/-- The two `ValueError` shapes raised by the color codec; the channel
name identifies which range check failed in `rgb_to_hex`. -/
inductive ColorError
  | invalidColor (cleaned : String)
  | outOfRange (channel : String)
deriving DecidableEq, Repr

/-- Duplicate each character of a 3-character shorthand
(`"".join(c * 2 for c in hex_color)` guarded by `len == 3`). -/
def expandShorthand (l : List Char) : List Char :=
  if l.length = 3 then l.flatMap (fun c => [c, c]) else l

/-- `hex_to_rgb` (colors.py lines 8-38): strips every leading `#`
(`lstrip("#")`), expands 3-character shorthand, requires length 6, then
parses the three 2-character slices with Python's `int(_, 16)` and
divides each by 255. -/
def hex_to_rgb (s : String) : Except ColorError RgbColor :=
  let h := s.data.dropWhile (fun c => c = '#')
  let h := expandShorthand h
  if h.length ≠ 6 then .error (.invalidColor ⟨h⟩)
  else
    match pyIntHex (h.take 2), pyIntHex ((h.drop 2).take 2), pyIntHex ((h.drop 4).take 2) with
    | some r, some g, some b => .ok ⟨⟨r, 255⟩, ⟨g, 255⟩, ⟨b, 255⟩⟩
    | _, _, _ => .error (.invalidColor ⟨h⟩)

/-- Uppercase hex digits of `n`, most significant first; the first
argument is structural fuel (`n` itself always suffices, since a number
never has more hex digits than its own value). -/
def natHexAux : Nat → Nat → List Char
  | 0, n => [("0123456789ABCDEF".data.getD (n % 16) '0')]
  | fuel + 1, n =>
    if n < 16 then [("0123456789ABCDEF".data.getD n '0')]
    else natHexAux fuel (n / 16) ++ [("0123456789ABCDEF".data.getD (n % 16) '0')]

/-- Uppercase hex representation of a natural number. -/
def natHexUpper (n : Nat) : List Char :=
  natHexAux n n

/-- Python's `f"{n:02X}"`: uppercase hex, zero-padded to a total width of
2 (the sign, when present, counts toward the width). -/
def pyFormat02X (n : Int) : String :=
  if 0 ≤ n then
    let d := natHexUpper n.toNat
    ⟨List.replicate (2 - d.length) '0' ++ d⟩
  else
    ⟨'-' :: natHexUpper n.natAbs⟩

/-- `rgb_to_hex` (colors.py lines 41-67): validates each channel against
`[0, 1]` in the order red, green, blue, then scales by 255, rounds to
nearest and formats as uppercase `#RRGGBB`. -/
def rgb_to_hex (c : RgbColor) : Except ColorError String :=
  if ¬ (PyReal.le ⟨0, 1⟩ c.red ∧ PyReal.le c.red ⟨1, 1⟩) then .error (.outOfRange "red")
  else if ¬ (PyReal.le ⟨0, 1⟩ c.green ∧ PyReal.le c.green ⟨1, 1⟩) then .error (.outOfRange "green")
  else if ¬ (PyReal.le ⟨0, 1⟩ c.blue ∧ PyReal.le c.blue ⟨1, 1⟩) then .error (.outOfRange "blue")
  else
    let rInt := (c.red.mul255).pyRound
    let gInt := (c.green.mul255).pyRound
    let bInt := (c.blue.mul255).pyRound
    .ok ("#" ++ pyFormat02X rInt ++ pyFormat02X gInt ++ pyFormat02X bInt)

/-! ## Units and transforms (`src/src/google_slides_mcp/utils/units.py`,
`src/src/google_slides_mcp/utils/transforms.py`) -/

def EMU_PER_INCH : Int := 914400

def SLIDE_WIDTH_EMU : Int := 9144000

def SLIDE_HEIGHT_16_9_EMU : Int := 5143500

def SLIDE_HEIGHT_4_3_EMU : Int := 6858000

def SLIDE_HEIGHT_16_10_EMU : Int := 5715000

/-- `emu_to_inches`: exact float division by 914400, modelled in `ℚ`. -/
def emu_to_inches (emu : Int) : ℚ :=
  (emu : ℚ) / (EMU_PER_INCH : ℚ)

/-- `inches_to_emu`: `int(inches * 914400)`, i.e. multiplication followed
by truncation toward zero. -/
def inches_to_emu (inches : ℚ) : Int :=
  (inches * (EMU_PER_INCH : ℚ)).num.tdiv ((inches * (EMU_PER_INCH : ℚ)).den : Int)

/-- The `SlideSize` dataclass: slide dimensions in EMU. -/
structure SlideSize where
  width_emu : Int
  height_emu : Int
deriving DecidableEq, Repr

/-- The 16:9 entry of `SLIDE_SIZES`, the default slide size. -/
def SLIDE_SIZE_16_9 : SlideSize :=
  ⟨SLIDE_WIDTH_EMU, SLIDE_HEIGHT_16_9_EMU⟩

/-- `calculate_alignment_position` (transforms.py lines 68-109): keyword
alignment against the slide box; `//` is Python floor division, hence
`Int.fdiv`; any keyword other than the recognized ones falls through to
coordinate 0, as does an absent keyword. -/
def calculate_alignment_position (slide_size : SlideSize)
    (element_width_emu element_height_emu : Int)
    (horizontal vertical : Option String) (margin_emu : Int) : Int × Int :=
  let x : Int :=
    if horizontal = some "left" then margin_emu
    else if horizontal = some "center" then (slide_size.width_emu - element_width_emu).fdiv 2
    else if horizontal = some "right" then slide_size.width_emu - element_width_emu - margin_emu
    else 0
  let y : Int :=
    if vertical = some "top" then margin_emu
    else if vertical = some "center" then (slide_size.height_emu - element_height_emu).fdiv 2
    else if vertical = some "bottom" then slide_size.height_emu - element_height_emu - margin_emu
    else 0
  (x, y)

/-- The transform dict built by `build_absolute_transform`, field for
field (`unit` is always `"EMU"`). Scale factors and the rotation angle
are Python floats, modelled as `ℚ`. -/
structure TransformRecord where
  scaleX : ℚ
  scaleY : ℚ
  shearX : Int
  shearY : Int
  translateX : Int
  translateY : Int
  unit : String

/-- `build_absolute_transform` (transforms.py lines 112-149): raises
`NotImplementedError` for any nonzero rotation angle, otherwise returns
the transform dict with both shear fields fixed at 0. -/
def build_absolute_transform (translate_x_emu translate_y_emu : Int)
    (scale_x scale_y : ℚ) (rotation_angle : ℚ) : Except String TransformRecord :=
  if rotation_angle ≠ 0 then .error "Rotation transforms are not yet supported"
  else .ok ⟨scale_x, scale_y, 0, 0, translate_x_emu, translate_y_emu, "EMU"⟩

/-! ## Presentation data model (dicts fetched from the Slides API) -/

/-- A `textRun` dict inside a text element. -/
structure TextRun where
  content : Option String

/-- One entry of `shape.text.textElements`. -/
structure TextElement where
  textRun : Option TextRun

/-- The `shape.text` dict. -/
structure TextBody where
  textElements : List TextElement

/-- The `shape.placeholder` dict. -/
structure Placeholder where
  type : Option String

/-- The `shape` dict of a page element. -/
structure Shape where
  placeholder : Option Placeholder
  text : Option TextBody

/-- The `transform` dict of a page element (translation fields only; the
remaining affine fields are never read by the embedded code). -/
structure ElementTransform where
  translateX : Option Int
  translateY : Option Int

/-- A `{"magnitude": _}` dict. -/
structure Magnitude where
  magnitude : Option Int

/-- The `size` dict of a page element. -/
structure ElementSize where
  width : Option Magnitude
  height : Option Magnitude

/-- A page element. `objectId` is required on every API resource, so it
is modelled as a total field; `none` on `shape`, `transform` or `size`
models both an absent key and an empty (hence falsy) dict. -/
structure PageElement where
  objectId : String
  shape : Option Shape
  transform : Option ElementTransform
  size : Option ElementSize

/-- A slide of a presentation. -/
structure Slide where
  objectId : String
  pageElements : List PageElement

/-- The `pageSize` dict of a presentation. -/
structure PageSize where
  width : Option Magnitude
  height : Option Magnitude

/-- A presentation as fetched by `get_presentation`. -/
structure Presentation where
  slides : List Slide
  pageSize : Option PageSize

/-- The placeholder type tag of an element:
`element.get("shape", {}).get("placeholder", {}).get("type")`. -/
def placeholderTypeOf (e : PageElement) : Option String :=
  (e.shape.bind (fun s => s.placeholder)).bind (fun p => p.type)

/-- The concatenated text of an element's runs:
`"".join(te.get("textRun", {}).get("content", "") for te in textElements)`. -/
def concatTextRuns (e : PageElement) : String :=
  let textElements := ((e.shape.bind (fun s => s.text)).map (fun t => t.textElements)).getD []
  String.join (textElements.map (fun te => ((te.textRun.bind (fun r => r.content)).getD "")))

/-- Determining the effective slide size (positioning.py, repeated in
`position_element` / `distribute_elements` / `align_elements`): default
to 16:9, override with the presentation's own page size when the
`pageSize` dict is truthy and both magnitudes are nonzero (Python's
numeric truthiness). -/
def effectiveSlideSize (p : Presentation) : SlideSize :=
  match p.pageSize with
  | none => SLIDE_SIZE_16_9
  | some ps =>
    let w := ((ps.width.bind (fun m => m.magnitude)).getD 0)
    let h := ((ps.height.bind (fun m => m.magnitude)).getD 0)
    if w ≠ 0 ∧ h ≠ 0 then ⟨w, h⟩ else SLIDE_SIZE_16_9

/-- `extract_element_bounds` (transforms.py lines 168-191): reads the
translate fields and size magnitudes, raising `ValueError` when the
transform or size block is absent (or an empty, falsy dict). -/
def extract_element_bounds (e : PageElement) : Except String (Int × Int × Int × Int) :=
  match e.transform, e.size with
  | some t, some sz =>
    .ok (t.translateX.getD 0, t.translateY.getD 0,
         (sz.width.bind (fun m => m.magnitude)).getD 0,
         (sz.height.bind (fun m => m.magnitude)).getD 0)
  | _, _ => .error "Page element missing transform or size information"

/-! ## Slide categorization
(`src/packages/python/src/google_slides_mcp/tools/analysis.py`) -/

/-- The fields of the `slide_info` dict that `_categorize_slide` reads. -/
structure SlideInfo where
  title : String
  placeholder_types : List String
  element_count : Nat
  index : Nat
  has_chart : Bool
  has_table : Bool
  has_image : Bool

/-- `_categorize_slide` (analysis.py lines 320-363): a first-match-wins
ordered rule cascade over the lowercased title, placeholder tags and
element count. -/
def categorize_slide (si : SlideInfo) : String :=
  let title := pyLower si.title
  let placeholders := si.placeholder_types
  if (["cover", "title page"].any (fun kw => strContains title kw)) ∨
     (si.element_count ≤ 4 ∧ placeholders.contains "TITLE" ∧ placeholders.contains "BODY" ∧
      si.index < 15) then "cover"
  else if (["section", "divider"].any (fun kw => strContains title kw)) ∨
     (si.element_count ≤ 3 ∧ placeholders.contains "TITLE" ∧
      (placeholders.contains "SUBTITLE" ∨ si.element_count = 1)) then "section_divider"
  else if si.has_chart ∨ (["chart", "graph", "table", "data"].any (fun kw => strContains title kw)) then
    "data_visualization"
  else if si.has_table then "data_visualization"
  else if strContains title "infographic" ∨ si.element_count > 15 then "infographic"
  else if ["mockup", "phone", "laptop", "device", "smartphone", "notebook"].any
      (fun kw => strContains title kw) then "mockup"
  else if si.has_image ∧ si.element_count ≤ 5 then "image_focused"
  else if placeholders.contains "BODY" ∨ si.element_count ≥ 3 then "content"
  else "other"

/-! ## Mutation requests -/

/-- A `textRange` dict (only the `{"type": "ALL"}` form is ever built). -/
structure TextRange where
  type : String
deriving DecidableEq, Repr

/-- The mutation request dicts built by the embedded tools. -/
inductive Request
  | deleteText (objectId : String) (textRange : TextRange)
  | insertText (objectId : String) (text : String) (insertionIndex : Nat)
  | updatePageElementTransform (objectId : String) (transform : TransformRecord)
      (applyMode : String)

/-- The `translateX` carried by a transform-update request (0 for the
text requests, which carry no transform). -/
def Request.transX : Request → Int
  | .updatePageElementTransform _ t _ => t.translateX
  | _ => 0

/-- The `translateY` carried by a transform-update request. -/
def Request.transY : Request → Int
  | .updatePageElementTransform _ t _ => t.translateY
  | _ => 0

/-! ## Content tools
(`src/packages/python/src/google_slides_mcp/tools/content.py`) -/

/-- The per-element result dict built by `_find_placeholder_elements`. -/
structure PlaceholderMatch where
  object_id : String
  placeholder_type : String
  current_text : String
deriving DecidableEq, Repr

/-- The result entry `_find_placeholder_elements` builds for one element. -/
def mkPlaceholderMatch (e : PageElement) (placeholder_type : String) : PlaceholderMatch :=
  ⟨e.objectId, placeholder_type, pyStrip (concatTextRuns e)⟩

/-- `_find_placeholder_elements` (content.py lines 15-42): scan a slide's
elements in order, keeping those whose placeholder type tag equals the
target, each annotated with its object id and its stripped concatenated
text. -/
def findPlaceholderLoop (placeholder_type : String) :
    List PageElement → List PlaceholderMatch
  | [] => []
  | e :: rest =>
    if placeholderTypeOf e = some placeholder_type then
      mkPlaceholderMatch e placeholder_type :: findPlaceholderLoop placeholder_type rest
    else findPlaceholderLoop placeholder_type rest

/-- `_find_placeholder_elements`, applied to a slide's element list. -/
def find_placeholder_elements (slide : Slide) (placeholder_type : String) :
    List PlaceholderMatch :=
  findPlaceholderLoop placeholder_type slide.pageElements

/-- `_build_text_replacement_requests` (content.py lines 74-87): a
delete-all-text request followed by an insert-at-index-0 request for the
same element. -/
def build_text_replacement_requests (object_id : String) (new_text : String) :
    List Request :=
  [.deleteText object_id ⟨"ALL"⟩, .insertText object_id new_text 0]

/-- A content value in a slide specification: a plain string or a list of
strings (joined with newlines by the tool). -/
inductive ContentValue
  | str (s : String)
  | items (xs : List String)

/-- Normalization applied to every content value:
`"\n".join(str(item) for item in new_text)` for lists, `str(new_text)`
otherwise. -/
def normalizeContent : ContentValue → String
  | .str s => s
  | .items xs => String.intercalate "\n" xs

/-- One entry of the `slides` argument of `update_presentation_content`:
the `slide_id` key (possibly absent) and the remaining key/value pairs in
dict order. -/
structure SlideSpec where
  slide_id : Option String
  content : List (String × ContentValue)

/-- Lookup in the `slide_map` dict built by `update_presentation_content`
(`slide_map[slide.get("objectId", "")] = slide` over the presentation's
slides, so a later slide with the same id overwrites an earlier one). -/
def slideMapGet (p : Presentation) (sid : String) : Option Slide :=
  p.slides.reverse.find? (fun s => s.objectId == sid)

/-- The running state of the `update_presentation_content` loop. -/
structure UpdateState where
  requests : List Request
  slides_updated : Nat
  placeholders_updated : Nat
  errors : List String

/-- The inner loop of `update_presentation_content` over one slide spec's
non-`slide_id` items: extends the request list with a replacement pair per
matching placeholder element and counts the placeholders updated. -/
def processSpecItems (slide : Slide) :
    List (String × ContentValue) → List Request × Nat
  | [] => ([], 0)
  | (key, v) :: rest =>
    let (reqs, count) := processSpecItems slide rest
    if key = "slide_id" then (reqs, count)
    else
      let elements := find_placeholder_elements slide key
      (elements.flatMap
        (fun el => build_text_replacement_requests el.object_id (normalizeContent v)) ++ reqs,
       elements.length + count)

/-- One iteration of the `update_presentation_content` loop body over a
slide spec: `if not slide_id` (absent or empty string, Python falsiness)
records a missing-id error; an id absent from the slide map records a
not-found error; otherwise the spec's items are processed and the
counters updated. -/
def updateStep (p : Presentation) (st : UpdateState) (spec : SlideSpec) : UpdateState :=
  match spec.slide_id with
  | none =>
    { st with errors := st.errors ++ ["Missing slide_id in slide specification"] }
  | some sid =>
    if sid = "" then
      { st with errors := st.errors ++ ["Missing slide_id in slide specification"] }
    else
      match slideMapGet p sid with
      | none =>
        { st with errors := st.errors ++ ["Slide " ++ sid ++ " not found in presentation"] }
      | some slide =>
        let (reqs, count) := processSpecItems slide spec.content
        { requests := st.requests ++ reqs
          slides_updated := st.slides_updated + (if count > 0 then 1 else 0)
          placeholders_updated := st.placeholders_updated + count
          errors := st.errors }

/-- The result dict of `update_presentation_content`, extended with the
number of `batch_update` calls the tool performs (`if requests:` guards
the single remote batch call). -/
structure UpdateResult where
  requests : List Request
  slides_updated : Nat
  placeholders_updated : Nat
  errors : List String
  batch_calls : Nat

/-- `update_presentation_content` (content.py lines 243-332): builds the
slide map, folds the loop body over the slide specs, and issues one
remote batch call exactly when the accumulated request list is
nonempty. -/
def update_presentation_content (p : Presentation) (specs : List SlideSpec) :
    UpdateResult :=
  let st := specs.foldl (updateStep p) ⟨[], 0, 0, []⟩
  { requests := st.requests
    slides_updated := st.slides_updated
    placeholders_updated := st.placeholders_updated
    errors := st.errors
    batch_calls := if st.requests.isEmpty then 0 else 1 }

/-! ## Positioning tools
(`src/packages/python/src/google_slides_mcp/tools/positioning.py`) -/

/-- The per-element bounds dict (`{"id", "x", "y", "width", "height"}`)
that `distribute_elements` and `align_elements` build from
`extract_element_bounds`. -/
structure ElemBounds where
  id : String
  x : Int
  y : Int
  width : Int
  height : Int
deriving DecidableEq, Repr

/-- One entry of the `new_positions` result list (positions reported back
in inches, EMU divided exactly by 914400). -/
structure NewPosition where
  element_id : String
  x_inches : ℚ
  y_inches : ℚ

/-- The `spacing` argument of `distribute_elements`: the keyword `"even"`
or a fixed gap in inches. -/
inductive Spacing
  | even
  | fixed (inches : ℚ)

/-- Result of `distribute_elements` after the remote fetch: either the
early-return error dict or the request list plus the reported positions. -/
inductive DistributeOutcome
  | failure (error : String)
  | success (requests : List Request) (elements : List NewPosition)

/-- The horizontal placement loop of `distribute_elements`: the first
argument is the running `current_x`, which advances by the element width
plus the gap after each element. -/
def distributeLoopH (gap : Int) : Int → List ElemBounds →
    Except String (List Request × List NewPosition)
  | _, [] => .ok ([], [])
  | current_x, e :: rest => do
    let t ← build_absolute_transform current_x e.y 1 1 0
    let (reqs, ps) ← distributeLoopH gap (current_x + e.width + gap) rest
    .ok (.updatePageElementTransform e.id t "ABSOLUTE" :: reqs,
         ⟨e.id, emu_to_inches current_x, emu_to_inches e.y⟩ :: ps)

/-- The vertical placement loop of `distribute_elements`. -/
def distributeLoopV (gap : Int) : Int → List ElemBounds →
    Except String (List Request × List NewPosition)
  | _, [] => .ok ([], [])
  | current_y, e :: rest => do
    let t ← build_absolute_transform e.x current_y 1 1 0
    let (reqs, ps) ← distributeLoopV gap (current_y + e.height + gap) rest
    .ok (.updatePageElementTransform e.id t "ABSOLUTE" :: reqs,
         ⟨e.id, emu_to_inches e.x, emu_to_inches current_y⟩ :: ps)

/-- `distribute_elements` (positioning.py lines 236-303) from the point
where the element bounds have been collected and put in caller order:
fewer than 2 elements returns the error dict; otherwise the gap is the
fixed spacing converted to EMU, or `(container - sum(extents)) / (count+1)`
for `"even"` — a float whose every use is wrapped in `int(...)`, i.e.
truncation toward zero (`Int.tdiv`). The first element is placed one gap
from the container origin. -/
def distribute_elements_core (slide_size : SlideSize) (direction : String)
    (spacing : Spacing) (elements : List ElemBounds) :
    Except String DistributeOutcome :=
  if elements.length < 2 then .ok (.failure "Need at least 2 elements to distribute")
  else if direction = "horizontal" then
    let total := (elements.map (fun e => e.width)).sum
    let gap : Int :=
      match spacing with
      | .even => (slide_size.width_emu - total).tdiv ((elements.length : Int) + 1)
      | .fixed q => inches_to_emu q
    do
      let (reqs, ps) ← distributeLoopH gap gap elements
      .ok (.success reqs ps)
  else
    let total := (elements.map (fun e => e.height)).sum
    let gap : Int :=
      match spacing with
      | .even => (slide_size.height_emu - total).tdiv ((elements.length : Int) + 1)
      | .fixed q => inches_to_emu q
    do
      let (reqs, ps) ← distributeLoopV gap gap elements
      .ok (.success reqs ps)

/-- The element-collection loop of `align_elements` for one requested id:
each slide contributes its first element matching the id (the inner
`break`), and a matching element without geometry propagates the
`ValueError` from `extract_element_bounds`. -/
def collectForId (id : String) : List Slide → Except String (List ElemBounds)
  | [] => .ok []
  | s :: rest =>
    match s.pageElements.find? (fun pe => pe.objectId == id) with
    | some pe => do
      let (x, y, w, h) ← extract_element_bounds pe
      let tail ← collectForId id rest
      .ok (⟨id, x, y, w, h⟩ :: tail)
    | none => collectForId id rest

/-- The outer element-collection loop of `align_elements`, preserving the
order of the requested ids. -/
def collectAlignElements (p : Presentation) : List String →
    Except String (List ElemBounds)
  | [] => .ok []
  | id :: rest => do
    let xs ← collectForId id p.slides
    let ys ← collectAlignElements p rest
    .ok (xs ++ ys)

/-- The per-element coordinate computation of `align_elements`
(positioning.py lines 394-413): starting from the element's current
coordinates, the matched alignment keyword overwrites exactly one axis
(`//` is Python floor division, hence `Int.fdiv`). -/
def alignNewCoords (alignment : String) (ref e : ElemBounds) : Int × Int :=
  if alignment = "left" then (ref.x, e.y)
  else if alignment = "center" then (ref.x + ref.width.fdiv 2 - e.width.fdiv 2, e.y)
  else if alignment = "right" then (ref.x + ref.width - e.width, e.y)
  else if alignment = "top" then (e.x, ref.y)
  else if alignment = "middle" then (e.x, ref.y + ref.height.fdiv 2 - e.height.fdiv 2)
  else if alignment = "bottom" then (e.x, ref.y + ref.height - e.height)
  else (e.x, e.y)

/-- The request/position building loop of `align_elements`. -/
def alignLoop (alignment : String) (ref : ElemBounds) : List ElemBounds →
    Except String (List Request × List NewPosition)
  | [] => .ok ([], [])
  | e :: rest => do
    let coords := alignNewCoords alignment ref e
    let t ← build_absolute_transform coords.1 coords.2 1 1 0
    let (reqs, ps) ← alignLoop alignment ref rest
    .ok (.updatePageElementTransform e.id t "ABSOLUTE" :: reqs,
         ⟨e.id, emu_to_inches coords.1, emu_to_inches coords.2⟩ :: ps)

/-- Result of `align_elements`: either the early-return error dict or the
request list plus the reported positions. -/
inductive AlignOutcome
  | failure (error : String)
  | success (requests : List Request) (elements : List NewPosition)

/-- `align_elements` (positioning.py lines 305-436): collects bounds for
the requested ids, picks the reference (first element, last element, or
the slide box for any other `reference` value — the slide reference dict
has no id, modelled with `""`), and recomputes one coordinate per
element. -/
def align_elements (p : Presentation) (element_ids : List String)
    (alignment reference : String) : Except String AlignOutcome := do
  let slide_size := effectiveSlideSize p
  let elements ← collectAlignElements p element_ids
  match elements with
  | [] => .ok (.failure "No elements found")
  | e0 :: rest =>
    let ref : ElemBounds :=
      if reference = "first" then e0
      else if reference = "last" then (e0 :: rest).getLastD e0
      else ⟨"", 0, 0, slide_size.width_emu, slide_size.height_emu⟩
    let (reqs, ps) ← alignLoop alignment ref (e0 :: rest)
    .ok (.success reqs ps)

/-! ## Specification-level characterizations
(derived descriptions the claim theorems compare the loops against) -/

/-- The sequence of leading-edge positions laid out from `current` with
the given gap: each element starts where the previous one started plus
that element's extent plus the gap. -/
def positionsFrom (gap : Int) : Int → (List Int) → List Int
  | _, [] => []
  | current, w :: rest => current :: positionsFrom gap (current + w + gap) rest

/-- The errors one slide specification contributes to the bulk update:
a missing/empty `slide_id` message, a not-found message naming the
requested id, or nothing. -/
def specErrors (p : Presentation) (spec : SlideSpec) : List String :=
  match spec.slide_id with
  | none => ["Missing slide_id in slide specification"]
  | some sid =>
    if sid = "" then ["Missing slide_id in slide specification"]
    else
      match slideMapGet p sid with
      | none => ["Slide " ++ sid ++ " not found in presentation"]
      | some _ => []

/-- The replacement requests one content item of a slide specification
contributes: a delete/insert pair per element matching the placeholder
key. -/
def itemRequests (slide : Slide) (kv : String × ContentValue) : List Request :=
  if kv.1 = "slide_id" then []
  else
    (find_placeholder_elements slide kv.1).flatMap
      (fun el => build_text_replacement_requests el.object_id (normalizeContent kv.2))

/-- The requests one slide specification contributes to the bulk update:
nothing when the slide id is missing, empty or absent from the fetched
presentation, and the concatenation of its items' replacement pairs
otherwise. -/
def specRequests (p : Presentation) (spec : SlideSpec) : List Request :=
  match spec.slide_id with
  | none => []
  | some sid =>
    if sid = "" then []
    else
      match slideMapGet p sid with
      | none => []
      | some slide => spec.content.flatMap (itemRequests slide)

/-- The transform-update request `align_elements` builds for one element. -/
def alignRequestOf (alignment : String) (ref e : ElemBounds) : Request :=
  .updatePageElementTransform e.id
    ⟨1, 1, 0, 0, (alignNewCoords alignment ref e).1, (alignNewCoords alignment ref e).2, "EMU"⟩
    "ABSOLUTE"

/-- The reported position `align_elements` builds for one element. -/
def alignPositionOf (alignment : String) (ref e : ElemBounds) : NewPosition :=
  ⟨e.id, emu_to_inches (alignNewCoords alignment ref e).1,
   emu_to_inches (alignNewCoords alignment ref e).2⟩

/-! ## Concrete fixtures used by witnesses and counterexamples -/

/-- A text element with one run carrying the given content. -/
def mkTextElement (content : String) : TextElement :=
  ⟨some ⟨some content⟩⟩

/-- A placeholder shape element with one text run. -/
def mkPlaceholderElement (oid ptype text : String) : PageElement :=
  ⟨oid, some ⟨some ⟨some ptype⟩, some ⟨[mkTextElement text]⟩⟩, none, none⟩

/-- A slide with a placeholder element whose single text run is
`"Hi\n"` (API text content carries the trailing newline). -/
def slideNewlineBody : Slide :=
  ⟨"s0", [mkPlaceholderElement "e1" "BODY" "Hi\n"]⟩

/-- A slide carrying two BODY placeholders around a TITLE placeholder. -/
def slideTwoBodies : Slide :=
  ⟨"s1", [mkPlaceholderElement "b1" "BODY" "Hello\n",
          mkPlaceholderElement "t1" "TITLE" "Head\n",
          mkPlaceholderElement "b2" "BODY" "World\n"]⟩

/-- A slide with the given id and one TITLE placeholder. -/
def mkTitleSlide (sid oid : String) : Slide :=
  ⟨sid, [mkPlaceholderElement oid "TITLE" "Old\n"]⟩

/-- A presentation with four slides `p1`-`p4` (and no slide `p9`). -/
def presFour : Presentation :=
  ⟨[mkTitleSlide "p1" "t1", mkTitleSlide "p2" "t2",
    mkTitleSlide "p3" "t3", mkTitleSlide "p4" "t4"], none⟩

/-- Five slide specifications targeting `p1`, `p2`, the absent `p9`,
`p3` and `p4`. -/
def specsFive : List SlideSpec :=
  [⟨some "p1", [("TITLE", .str "A")]⟩,
   ⟨some "p2", [("TITLE", .str "B")]⟩,
   ⟨some "p9", [("TITLE", .str "X")]⟩,
   ⟨some "p3", [("TITLE", .str "C")]⟩,
   ⟨some "p4", [("TITLE", .str "D")]⟩]

/-- The specification targeting the absent slide `p9`. -/
def specMissing : SlideSpec :=
  ⟨some "p9", [("TITLE", .str "X")]⟩

/-- A page element with geometry only. -/
def mkGeomElement (oid : String) (x y w h : Int) : PageElement :=
  ⟨oid, none, some ⟨some x, some y⟩, some ⟨some ⟨some w⟩, some ⟨some h⟩⟩⟩

/-- A presentation with one slide holding two positioned elements. -/
def presGeom : Presentation :=
  ⟨[⟨"s1", [mkGeomElement "e1" 100 200 300 400,
            mkGeomElement "e2" 500 600 700 800]⟩], none⟩

/-- Three elements of width 1000 in caller order (heights and current
positions irrelevant to horizontal distribution). -/
def threeKiloElements : List ElemBounds :=
  [⟨"a", 0, 50, 1000, 20⟩, ⟨"b", 0, 60, 1000, 20⟩, ⟨"c", 0, 70, 1000, 20⟩]

/-- The slide-info record for a slide titled "Q1 Section" with exactly a
TITLE and a SUBTITLE placeholder. -/
def sectionSlideInfo : SlideInfo :=
  ⟨"Q1 Section", ["TITLE", "SUBTITLE"], 2, 0, false, false, false⟩

/-- The slide-info record identical to `sectionSlideInfo` except that the
title also contains the cover keyword. -/
def coverSectionSlideInfo : SlideInfo :=
  ⟨"Cover Section", ["TITLE", "SUBTITLE"], 2, 0, false, false, false⟩

/-! ## Helper lemmas -/

/-- With zero rotation, `build_absolute_transform` always succeeds and
returns the transform dict with zero shear. -/
theorem build_absolute_transform_zero (tx ty : Int) (sx sy : ℚ) :
    build_absolute_transform tx ty sx sy 0 =
      .ok ⟨sx, sy, 0, 0, tx, ty, "EMU"⟩ := by
  simp [build_absolute_transform]

/-- Binding a successful `Except` computation applies the continuation. -/
theorem except_bind_ok {ε α β : Type} (x : α) (f : α → Except ε β) :
    (Except.ok x >>= f) = f x := rfl

/-- The placeholder scan is the filter of the matching elements, each
mapped to its annotated result record. -/
theorem findPlaceholderLoop_eq_filter_map (pt : String) (l : List PageElement) :
    findPlaceholderLoop pt l =
      (l.filter (fun e => placeholderTypeOf e == some pt)).map
        (fun e => mkPlaceholderMatch e pt) := by
  induction l with
  | nil => rfl
  | cons e rest ih =>
    by_cases h : placeholderTypeOf e = some pt
    · simp [findPlaceholderLoop, h, List.filter_cons, ih]
    · simp [findPlaceholderLoop, h, List.filter_cons, ih]

/-! ## Claim C4 -/

/-- Claim C4 (code bug): `hex_to_rgb` does not reject every string whose
stripped/expanded form fails to be 6 hex digits. Python's `int(_, 16)`
accepts a sign inside each 2-character slice, so `"+1+1+1"` is accepted,
and `"-10000"` is accepted and even yields a negative red channel,
against the function's own documented contract of raising `ValueError`
on invalid colors and returning channels in `[0, 1]`. -/
theorem hex_to_rgb_accepts_non_hex_digits :
    hex_to_rgb "+1+1+1" = .ok ⟨⟨1, 255⟩, ⟨1, 255⟩, ⟨1, 255⟩⟩ ∧
    hex_to_rgb "-10000" = .ok ⟨⟨-1, 255⟩, ⟨0, 255⟩, ⟨0, 255⟩⟩ ∧
    PyReal.le ⟨0, 1⟩ ⟨-1, 255⟩ = false := by
  exact ⟨rfl, rfl, rfl⟩

/-! ## Claim C5 -/

/-- Claim C5: encode-after-decode is the identity on the six listed color
strings: `rgb_to_hex (hex_to_rgb s) = s` for `#FF0000`, `#00FF00`,
`#0000FF`, `#000000`, `#FFFFFF` and `#AABBCC`. -/
theorem rgb_hex_roundtrip_six_colors :
    (hex_to_rgb "#FF0000").bind rgb_to_hex = .ok "#FF0000" ∧
    (hex_to_rgb "#00FF00").bind rgb_to_hex = .ok "#00FF00" ∧
    (hex_to_rgb "#0000FF").bind rgb_to_hex = .ok "#0000FF" ∧
    (hex_to_rgb "#000000").bind rgb_to_hex = .ok "#000000" ∧
    (hex_to_rgb "#FFFFFF").bind rgb_to_hex = .ok "#FFFFFF" ∧
    (hex_to_rgb "#AABBCC").bind rgb_to_hex = .ok "#AABBCC" := by
  exact ⟨rfl, rfl, rfl, rfl, rfl, rfl⟩

/-! ## Claim C6 -/

/-- Claim C6: for every element identifier and replacement text, the
text-replacement builder emits exactly two requests, in order a delete
over the full text range of the element followed by an insert of the new
text at index 0 on the same element. -/
theorem text_replacement_two_ordered_requests (object_id new_text : String) :
    build_text_replacement_requests object_id new_text =
      [.deleteText object_id ⟨"ALL"⟩, .insertText object_id new_text 0] ∧
    (build_text_replacement_requests object_id new_text).length = 2 := by
  exact ⟨rfl, rfl⟩

/-! ## Claim C7 -/

/-- Claim C7: `calculate_alignment_position` maps an absent horizontal
keyword to x = 0, `left` to the margin, `center` to the floor of half the
free width, `right` to `width − elementWidth − margin`, symmetrically on
the vertical axis against the height, and in particular centering a
1828800-wide element in a 9144000-wide slide yields x = 3657600. -/
theorem alignment_position_cases (sw sh ew eh m : Int) (h v : Option String) :
    (calculate_alignment_position ⟨sw, sh⟩ ew eh none v m).1 = 0 ∧
    (calculate_alignment_position ⟨sw, sh⟩ ew eh (some "left") v m).1 = m ∧
    (calculate_alignment_position ⟨sw, sh⟩ ew eh (some "center") v m).1 = (sw - ew).fdiv 2 ∧
    (calculate_alignment_position ⟨sw, sh⟩ ew eh (some "right") v m).1 = sw - ew - m ∧
    (calculate_alignment_position ⟨sw, sh⟩ ew eh h none m).2 = 0 ∧
    (calculate_alignment_position ⟨sw, sh⟩ ew eh h (some "top") m).2 = m ∧
    (calculate_alignment_position ⟨sw, sh⟩ ew eh h (some "center") m).2 = (sh - eh).fdiv 2 ∧
    (calculate_alignment_position ⟨sw, sh⟩ ew eh h (some "bottom") m).2 = sh - eh - m ∧
    (calculate_alignment_position ⟨9144000, sh⟩ 1828800 eh (some "center") v 0).1 = 3657600 := by
  refine ⟨?_, ?_, ?_, ?_, ?_, ?_, ?_, ?_, ?_⟩ <;>
    simp [calculate_alignment_position]

/-! ## Claim C8 -/

/-- Claim C8: `build_absolute_transform` fails with `NotImplementedError`
for every nonzero rotation angle, and for zero rotation returns the
transform record with both shear fields fixed at 0 and the given
translation and scale. -/
theorem build_transform_rotation_gate (tx ty : Int) (sx sy rot : ℚ) :
    (rot ≠ 0 →
      build_absolute_transform tx ty sx sy rot =
        .error "Rotation transforms are not yet supported") ∧
    build_absolute_transform tx ty sx sy 0 = .ok ⟨sx, sy, 0, 0, tx, ty, "EMU"⟩ := by
  constructor
  · intro hrot
    simp [build_absolute_transform, hrot]
  · exact build_absolute_transform_zero tx ty sx sy

/-- Witness for C8 at rotation 1 (and translation (5, 7), unit scale). -/
theorem build_transform_rotation_gate_witness :
    build_absolute_transform 5 7 1 1 1 =
      .error "Rotation transforms are not yet supported" ∧
    build_absolute_transform 5 7 1 1 0 = .ok ⟨1, 1, 0, 0, 5, 7, "EMU"⟩ :=
  ⟨(build_transform_rotation_gate 5 7 1 1 1).1 one_ne_zero,
   (build_transform_rotation_gate 5 7 1 1 1).2⟩

/-! ## Claim C2 -/

/-- Counterexample to claim C2 as stated: the title "Cover Section"
contains "section" and the slide has exactly the TITLE and SUBTITLE
placeholders, yet the categorizer returns `cover`, because the cover
rule is evaluated before the section-divider rule. -/
theorem categorize_cover_keyword_beats_section :
    strContains (pyLower coverSectionSlideInfo.title) "section" = true ∧
    coverSectionSlideInfo.element_count = 2 ∧
    coverSectionSlideInfo.placeholder_types = ["TITLE", "SUBTITLE"] ∧
    categorize_slide coverSectionSlideInfo = "cover" ∧
    ("cover" : String) ≠ "section_divider" := by
  exact ⟨rfl, rfl, rfl, rfl, by decide⟩

/-- Claim C2 as amended: for every slide whose title contains "section"
but neither "cover" nor "title page" (case-insensitively), with exactly
2 elements carrying the TITLE and SUBTITLE placeholder tags, the
categorizer returns `section_divider` — the section rule fires and no
earlier rule can. -/
theorem categorize_section_divider_precedence (si : SlideInfo)
    (_hcount : si.element_count = 2)
    (htypes : si.placeholder_types = ["TITLE", "SUBTITLE"])
    (hsec : strContains (pyLower si.title) "section" = true)
    (hcov : strContains (pyLower si.title) "cover" = false)
    (htp : strContains (pyLower si.title) "title page" = false) :
    categorize_slide si = "section_divider" := by
  simp [categorize_slide, htypes, hsec, hcov, htp]

/-- Witness for C2 (amended) at the slide titled "Q1 Section" with TITLE
and SUBTITLE placeholders. -/
theorem categorize_section_divider_precedence_witness :
    strContains (pyLower sectionSlideInfo.title) "section" = true ∧
    categorize_slide sectionSlideInfo = "section_divider" :=
  ⟨rfl, categorize_section_divider_precedence sectionSlideInfo rfl rfl rfl rfl rfl⟩

/-! ## Claim C9 -/

/-- Counterexample to claim C9 as stated: on a slide whose BODY element
has the single text run `"Hi\n"`, the reported current text is the
stripped `"Hi"`, not the bare concatenation `"Hi\n"`. -/
theorem find_placeholder_strips_concatenation :
    find_placeholder_elements slideNewlineBody "BODY" =
      [⟨"e1", "BODY", "Hi"⟩] ∧
    concatTextRuns (mkPlaceholderElement "e1" "BODY" "Hi\n") = "Hi\n" ∧
    ("Hi" : String) ≠ "Hi\n" := by
  exact ⟨rfl, rfl, by decide⟩

/-- Claim C9 as amended: for every slide and placeholder category, the
finder returns exactly the elements whose placeholder tag equals the
target, in slide order, each annotated with its identifier and its
current text formed by concatenating the element's text runs with no
separator and then stripping leading and trailing whitespace; in
particular both elements of a slide with two BODY placeholders are
returned. -/
theorem find_placeholder_elements_characterization (slide : Slide) (category : String) :
    find_placeholder_elements slide category =
      (slide.pageElements.filter (fun e => placeholderTypeOf e == some category)).map
        (fun e => { object_id := e.objectId
                    placeholder_type := category
                    current_text := pyStrip (concatTextRuns e) }) ∧
    find_placeholder_elements slideTwoBodies "BODY" =
      [⟨"b1", "BODY", "Hello"⟩, ⟨"b2", "BODY", "World"⟩] := by
  exact ⟨findPlaceholderLoop_eq_filter_map category slide.pageElements, rfl⟩

/-! ## Claim C3 -/

/-- The laid-out position sequence has one entry per element. -/
theorem positionsFrom_length (gap : Int) :
    ∀ (ws : List Int) (c : Int), (positionsFrom gap c ws).length = ws.length := by
  intro ws
  induction ws with
  | nil => intro c; rfl
  | cons w rest ih => intro c; simp [positionsFrom, ih]

/-- The position sequence starts at its starting offset. -/
theorem positionsFrom_getD_zero (gap c w : Int) (rest : List Int) :
    (positionsFrom gap c (w :: rest)).getD 0 0 = c := rfl

/-- Each subsequent position is the previous one plus that element's
extent plus the gap. -/
theorem positionsFrom_getD_succ (gap : Int) :
    ∀ (ws : List Int) (c : Int) (i : Nat), i + 1 < ws.length →
      (positionsFrom gap c ws).getD (i + 1) 0 =
        (positionsFrom gap c ws).getD i 0 + ws.getD i 0 + gap := by
  intro ws
  induction ws with
  | nil => intro c i h; simp at h
  | cons w rest ih =>
    intro c i h
    cases i with
    | zero =>
      cases rest with
      | nil => simp at h
      | cons w2 r2 => simp [positionsFrom]
    | succ j =>
      have h' : j + 1 < rest.length := by simpa using h
      simpa [positionsFrom] using ih (c + w + gap) j h'

/-- The horizontal distribution loop always succeeds with zero rotation,
and the translateX values it submits are exactly the laid-out position
sequence, which the reported inch positions mirror. -/
theorem distributeLoopH_ok (gap : Int) :
    ∀ (l : List ElemBounds) (cx : Int),
      ∃ reqs ps,
        distributeLoopH gap cx l = .ok (reqs, ps) ∧
        reqs.map Request.transX = positionsFrom gap cx (l.map (fun e => e.width)) ∧
        ps.map NewPosition.x_inches =
          (positionsFrom gap cx (l.map (fun e => e.width))).map emu_to_inches := by
  intro l
  induction l with
  | nil => intro cx; exact ⟨[], [], rfl, rfl, rfl⟩
  | cons e rest ih =>
    intro cx
    obtain ⟨reqs, ps, hok, hreq, hps⟩ := ih (cx + e.width + gap)
    refine ⟨.updatePageElementTransform e.id ⟨1, 1, 0, 0, cx, e.y, "EMU"⟩ "ABSOLUTE" :: reqs,
            ⟨e.id, emu_to_inches cx, emu_to_inches e.y⟩ :: ps, ?_, ?_, ?_⟩
    · simp [distributeLoopH, build_absolute_transform_zero, hok, except_bind_ok]
    · simp [Request.transX, positionsFrom, hreq]
    · simp [positionsFrom, hps]

/-- Claim C3: distributing at least 2 elements horizontally with spacing
"even" computes the gap `(containerWidth − sum(widths)) tdiv (count+1)`,
places the first element one gap from the container origin, advances each
subsequent position by the previous element's width plus the gap, and
reports the same positions in inches; in particular three elements of
width 1000 in a container of width 4000 get positions 250, 1500, 2750. -/
theorem distribute_even_gap_and_positions :
    (∀ (slide_size : SlideSize) (elements : List ElemBounds),
      2 ≤ elements.length →
      ∃ reqs ps,
        distribute_elements_core slide_size "horizontal" .even elements =
          .ok (.success reqs ps) ∧
        (reqs.map Request.transX).length = elements.length ∧
        (reqs.map Request.transX).getD 0 0 =
          (slide_size.width_emu - (elements.map (fun e => e.width)).sum).tdiv
            ((elements.length : Int) + 1) ∧
        (∀ i, i + 1 < elements.length →
          (reqs.map Request.transX).getD (i + 1) 0 =
            (reqs.map Request.transX).getD i 0 +
            (elements.map (fun e => e.width)).getD i 0 +
            (slide_size.width_emu - (elements.map (fun e => e.width)).sum).tdiv
              ((elements.length : Int) + 1)) ∧
        ps.map NewPosition.x_inches = (reqs.map Request.transX).map emu_to_inches) ∧
    (∃ reqs ps,
      distribute_elements_core ⟨4000, 2000⟩ "horizontal" .even threeKiloElements =
        .ok (.success reqs ps) ∧
      reqs.map Request.transX = [250, 1500, 2750]) := by
  constructor
  · intro slide_size elements h2
    set g : Int :=
      (slide_size.width_emu - (elements.map (fun e => e.width)).sum).tdiv
        ((elements.length : Int) + 1) with hg
    obtain ⟨reqs, ps, hok, hreq, hps⟩ := distributeLoopH_ok g elements g
    have hlen : (reqs.map Request.transX).length = elements.length := by
      rw [hreq, positionsFrom_length]; simp
    refine ⟨reqs, ps, ?_, hlen, ?_, ?_, ?_⟩
    · have hlt : ¬ (elements.length < 2) := by omega
      simp [distribute_elements_core, hlt, ← hg, hok, except_bind_ok]
    · rw [hreq]
      cases elements with
      | nil => simp at h2
      | cons e r => simp [positionsFrom]
    · intro i hi
      rw [hreq]
      exact positionsFrom_getD_succ g (elements.map (fun e => e.width)) g i (by simpa using hi)
    · rw [hps, hreq]
  · exact ⟨_, _, rfl, rfl⟩

/-- Witness for C3 at three width-1000 elements in a width-4000 container. -/
theorem distribute_even_gap_and_positions_witness :
    2 ≤ threeKiloElements.length ∧
    (∃ reqs ps,
      distribute_elements_core ⟨4000, 2000⟩ "horizontal" .even threeKiloElements =
        .ok (.success reqs ps) ∧
      (reqs.map Request.transX).length = threeKiloElements.length ∧
      (reqs.map Request.transX).getD 0 0 =
        (((4000 : Int)) - (threeKiloElements.map (fun e => e.width)).sum).tdiv
          ((threeKiloElements.length : Int) + 1) ∧
      (∀ i, i + 1 < threeKiloElements.length →
        (reqs.map Request.transX).getD (i + 1) 0 =
          (reqs.map Request.transX).getD i 0 +
          (threeKiloElements.map (fun e => e.width)).getD i 0 +
          (((4000 : Int)) - (threeKiloElements.map (fun e => e.width)).sum).tdiv
            ((threeKiloElements.length : Int) + 1)) ∧
      ps.map NewPosition.x_inches = (reqs.map Request.transX).map emu_to_inches) :=
  ⟨by decide,
   distribute_even_gap_and_positions.1 ⟨4000, 2000⟩ threeKiloElements (by decide)⟩

/-! ## Claim C1 -/

/-- The request component of the item loop is the concatenation of the
per-item replacement pairs. -/
theorem processSpecItems_fst (slide : Slide) :
    ∀ (items : List (String × ContentValue)),
      (processSpecItems slide items).1 = items.flatMap (itemRequests slide) := by
  intro items
  induction items with
  | nil => rfl
  | cons kv rest ih =>
    obtain ⟨key, v⟩ := kv
    by_cases h : key = "slide_id"
    · simp [processSpecItems, itemRequests, h, ih]
    · simp [processSpecItems, itemRequests, h, ih]

/-- One loop iteration of the bulk update appends exactly that slide
specification's requests and errors. -/
theorem updateStep_spec (p : Presentation) (st : UpdateState) (spec : SlideSpec) :
    (updateStep p st spec).requests = st.requests ++ specRequests p spec ∧
    (updateStep p st spec).errors = st.errors ++ specErrors p spec := by
  cases hsid : spec.slide_id with
  | none => simp [updateStep, specRequests, specErrors, hsid]
  | some sid =>
    by_cases hs : sid = ""
    · simp [updateStep, specRequests, specErrors, hsid, hs]
    · cases hm : slideMapGet p sid with
      | none => simp [updateStep, specRequests, specErrors, hsid, hs, hm]
      | some slide =>
        have hfst := processSpecItems_fst slide spec.content
        simp [updateStep, specRequests, specErrors, hsid, hs, hm, ← hfst]

/-- Folding the loop body over the slide specifications appends the
concatenation of per-specification requests and errors. -/
theorem updateFold_spec (p : Presentation) :
    ∀ (specs : List SlideSpec) (st : UpdateState),
      (specs.foldl (updateStep p) st).requests =
        st.requests ++ specs.flatMap (specRequests p) ∧
      (specs.foldl (updateStep p) st).errors =
        st.errors ++ specs.flatMap (specErrors p) := by
  intro specs
  induction specs with
  | nil => intro st; simp
  | cons spec rest ih =>
    intro st
    obtain ⟨hreq, herr⟩ := updateStep_spec p st spec
    obtain ⟨ihreq, iherr⟩ := ih (updateStep p st spec)
    constructor
    · simp [List.foldl_cons, ihreq, hreq]
    · simp [List.foldl_cons, iherr, herr]

/-- Claim C1: in a bulk content update, the accumulated request list is
the concatenation of each slide specification's replacement pairs (an
absent slide contributing none), the error list is the concatenation of
the per-specification errors, at most one remote batch call is issued,
and every specification naming a slide id absent from the fetched
presentation gets a not-found error naming that id. -/
theorem bulk_update_requests_errors_single_batch (p : Presentation)
    (specs : List SlideSpec) :
    (update_presentation_content p specs).requests = specs.flatMap (specRequests p) ∧
    (update_presentation_content p specs).errors = specs.flatMap (specErrors p) ∧
    (update_presentation_content p specs).batch_calls ≤ 1 ∧
    ∀ spec ∈ specs, ∀ sid, spec.slide_id = some sid → sid ≠ "" →
      slideMapGet p sid = none →
      ("Slide " ++ sid ++ " not found in presentation") ∈
        (update_presentation_content p specs).errors := by
  obtain ⟨hreq, herr⟩ := updateFold_spec p specs ⟨[], 0, 0, []⟩
  refine ⟨?_, ?_, ?_, ?_⟩
  · simpa [update_presentation_content] using hreq
  · simpa [update_presentation_content] using herr
  · simp only [update_presentation_content]
    split <;> simp
  · intro spec hmem sid hsid hne hnone
    have herr2 : (update_presentation_content p specs).errors =
        specs.flatMap (specErrors p) := by
      simpa [update_presentation_content] using herr
    rw [herr2]
    refine List.mem_flatMap.mpr ⟨spec, hmem, ?_⟩
    simp [specErrors, hsid, hne, hnone]

/-- Witness for C1: five slide specifications over a four-slide
presentation missing `p9` record the not-found error for `p9` while the
whole invocation issues at most one batch call. -/
theorem bulk_update_requests_errors_single_batch_witness :
    ("Slide " ++ "p9" ++ " not found in presentation") ∈
      (update_presentation_content presFour specsFive).errors ∧
    (update_presentation_content presFour specsFive).batch_calls ≤ 1 :=
  ⟨(bulk_update_requests_errors_single_batch presFour specsFive).2.2.2
      specMissing (by simp [specsFive, specMissing]) "p9" rfl (by decide) rfl,
   (bulk_update_requests_errors_single_batch presFour specsFive).2.2.1⟩

/-! ## Claim C10 -/

/-- The align loop always succeeds with zero rotation, returning the
mapped requests and reported positions. -/
theorem alignLoop_ok (alignment : String) (ref : ElemBounds) :
    ∀ (l : List ElemBounds),
      alignLoop alignment ref l =
        .ok (l.map (alignRequestOf alignment ref), l.map (alignPositionOf alignment ref)) := by
  intro l
  induction l with
  | nil => rfl
  | cons e rest ih =>
    simp [alignLoop, build_absolute_transform_zero, ih, except_bind_ok,
          alignRequestOf, alignPositionOf]

/-- A horizontal alignment keyword never changes the vertical
coordinate. -/
theorem alignNewCoords_horizontal (a : String) (ref e : ElemBounds)
    (h : a = "left" ∨ a = "center" ∨ a = "right") :
    (alignNewCoords a ref e).2 = e.y := by
  rcases h with rfl | rfl | rfl <;> rfl

/-- A vertical alignment keyword never changes the horizontal
coordinate. -/
theorem alignNewCoords_vertical (a : String) (ref e : ElemBounds)
    (h : a = "top" ∨ a = "middle" ∨ a = "bottom") :
    (alignNewCoords a ref e).1 = e.x := by
  rcases h with rfl | rfl | rfl <;> rfl

/-- Claim C10: whenever `align_elements` returns positions for the
collected elements, a horizontal keyword (`left`/`center`/`right`)
leaves every element's reported y at its current y, and a vertical
keyword (`top`/`middle`/`bottom`) leaves every element's reported x at
its current x. -/
theorem align_one_axis_only (p : Presentation) (ids : List String)
    (alignment reference : String) (reqs : List Request) (ps : List NewPosition)
    (es : List ElemBounds)
    (halign : align_elements p ids alignment reference = .ok (.success reqs ps))
    (hcollect : collectAlignElements p ids = .ok es) :
    ((alignment = "left" ∨ alignment = "center" ∨ alignment = "right") →
      ps.map NewPosition.y_inches = es.map (fun e => emu_to_inches e.y)) ∧
    ((alignment = "top" ∨ alignment = "middle" ∨ alignment = "bottom") →
      ps.map NewPosition.x_inches = es.map (fun e => emu_to_inches e.x)) := by
  rw [align_elements, hcollect] at halign
  cases es with
  | nil => simp [except_bind_ok] at halign
  | cons e0 rest =>
    simp only [except_bind_ok, alignLoop_ok, Except.ok.injEq,
               AlignOutcome.success.injEq] at halign
    obtain ⟨hreqs, hps⟩ := halign
    constructor
    · intro hhoriz
      rw [← hps]
      simp only [List.map_map]
      exact List.map_congr_left fun e _ => by
        simp [alignPositionOf, Function.comp,
              alignNewCoords_horizontal alignment _ e hhoriz]
    · intro hvert
      rw [← hps]
      simp only [List.map_map]
      exact List.map_congr_left fun e _ => by
        simp [alignPositionOf, Function.comp,
              alignNewCoords_vertical alignment _ e hvert]

/-- Witness for C10: aligning the two elements of the geometry fixture
left to the first element preserves both reported y coordinates. -/
theorem align_one_axis_only_witness :
    ∃ reqs ps es,
      align_elements presGeom ["e1", "e2"] "left" "first" = .ok (.success reqs ps) ∧
      collectAlignElements presGeom ["e1", "e2"] = .ok es ∧
      ps.map NewPosition.y_inches = es.map (fun e => emu_to_inches e.y) := by
  refine ⟨_, _, _, rfl, rfl, ?_⟩
  exact (align_one_axis_only presGeom ["e1", "e2"] "left" "first" _ _ _ rfl rfl).1
    (Or.inl rfl)

end GSlides
